import Mathlib

/-!
Verification of the asynchronous job dispatch pipeline described by the
`rag-cdk-infra` stack.  The source files of the repository declare the infrastructure
configuration (queue, dead-letter queue, worker and API functions, table,
grants, event source); the handler logic referenced by the configuration
(`api_handler.handler`, `work_handler.handler`) is not part of the sources,
so the dynamic behaviour of the pipeline (store, queue, worker, submission
endpoint) is modelled from the specification and the configuration constants
are embedded from the source.
-/

namespace RagPipeline

/-! ## Embedding of the CDK stack configuration (from `src/unnamed/part_000`). -/

/-- A DynamoDB-style table declaration: partition key name and billing mode. -/
structure TableProps where
  partitionKeyName : String
  payPerRequest : Bool
deriving DecidableEq, Repr

/-- A Lambda-style function declaration: handler command, memory, timeout,
environment variables. -/
structure FunctionProps where
  cmd : String
  memorySize : Nat
  timeoutSeconds : Nat
  environment : List (String × String)
deriving DecidableEq, Repr

/-- Dead-letter configuration of a queue: maximum receive count and the
identifier of the dead-letter queue. -/
structure DeadLetterProps where
  maxReceiveCount : Nat
  queueId : String
deriving DecidableEq, Repr

/-- A queue declaration: visibility timeout (seconds; `none` when the
provider default is used), retention (days), encryption flag, optional
dead-letter configuration. -/
structure QueueProps where
  id : String
  visibilityTimeoutSeconds : Option Nat
  retentionPeriodDays : Nat
  kmsManaged : Bool
  deadLetter : Option DeadLetterProps
deriving DecidableEq, Repr

/-- An SQS event-source mapping: which function consumes which queue, with
what batch size and batching window. -/
structure EventSourceProps where
  functionId : String
  queueId : String
  batchSize : Nat
  maxBatchingWindowSeconds : Nat
deriving DecidableEq, Repr

/-- An IAM grant on a queue: grantee function id, queue id, and the action
("send" or "consume"). -/
structure QueueGrant where
  grantee : String
  queueId : String
  action : String
deriving DecidableEq, Repr

/-- `RagQueryTable`: partition key `query_id`, pay-per-request billing. -/
def ragQueryTable : TableProps :=
  { partitionKeyName := "query_id", payPerRequest := true }

/-- `RagWorkerFunction`: the worker, 512 MB, 60 s timeout. -/
def workerFunction : FunctionProps :=
  { cmd := "work_handler.handler"
    memorySize := 512
    timeoutSeconds := 60
    environment := [("TABLE_NAME", "RagQueryTable")] }

/-- `ApiFunc`: the submission endpoint, 256 MB, 29 s timeout.  The
`JOBS_QUEUE_URL` entry is added by `apiFunction.addEnvironment` after the
queue is declared. -/
def apiFunction : FunctionProps :=
  { cmd := "api_handler.handler"
    memorySize := 256
    timeoutSeconds := 29
    environment :=
      [("IS_USING_IMAGE_RUNTIME", "1"),
       ("CHROMA_PATH", "src/data/chroma"),
       ("TABLE_NAME", "RagQueryTable"),
       ("JOBS_QUEUE_URL", "JobsQueue")] }

/-- `JobsDLQ`: the dead-letter queue, 14-day retention, KMS-managed
encryption, no dead-letter configuration of its own. -/
def jobsDlq : QueueProps :=
  { id := "JobsDLQ"
    visibilityTimeoutSeconds := none
    retentionPeriodDays := 14
    kmsManaged := true
    deadLetter := none }

/-- `JobsQueue`: the primary queue, 120 s visibility timeout, 4-day
retention, KMS-managed encryption, dead-lettering to `JobsDLQ` after
3 receives. -/
def jobsQueue : QueueProps :=
  { id := "JobsQueue"
    visibilityTimeoutSeconds := some 120
    retentionPeriodDays := 4
    kmsManaged := true
    deadLetter := some { maxReceiveCount := 3, queueId := "JobsDLQ" } }

/-- The single event-source mapping of the stack: `RagWorkerFunction`
consumes `JobsQueue` with batch size 5 and a 1 s batching window. -/
def workerEventSource : EventSourceProps :=
  { functionId := "RagWorkerFunction"
    queueId := "JobsQueue"
    batchSize := 5
    maxBatchingWindowSeconds := 1 }

/-- All event-source mappings declared by the stack. -/
def stackEventSources : List EventSourceProps := [workerEventSource]

/-- All queue grants declared by the stack: the API may send to
`JobsQueue`, the worker may consume from `JobsQueue`. -/
def stackQueueGrants : List QueueGrant :=
  [{ grantee := "ApiFunc", queueId := "JobsQueue", action := "send" },
   { grantee := "RagWorkerFunction", queueId := "JobsQueue", action := "consume" }]

/-! ## The pipeline model.

Modelled from the spec: the handlers (`api_handler.handler`,
`work_handler.handler`) configured by the stack are not among the sources,
so the Job Record Store, Durable Queue, Worker Pool and Submission Endpoint
are modelled from sections 3–4 of the specification.  Payloads, results and
identifiers are opaque to the core and are represented by `Nat`. -/

/-- Modelled from the spec: job status enum {pending, processing, completed,
failed}. -/
inductive JobStatus
  | pending
  | processing
  | completed
  | failed
deriving DecidableEq, Repr

/-- Modelled from the spec: a Job Record holds the status, the opaque payload
supplied at submission, and the opaque result (absent until completion).  The
`query_id` is the key under which the record is stored. -/
structure JobRecord where
  status : JobStatus
  payload : Nat
  result : Option Nat
deriving DecidableEq, Repr

/-- Modelled from the spec: the Job Record Store is a durable mapping from
job identifier to current record, represented as an association list keyed
by `query_id`. -/
abbrev Store := List (Nat × JobRecord)

/-- Look a record up by `query_id` (the operation the spec names `get`). -/
def Store.get (s : Store) (id : Nat) : Option JobRecord :=
  (s.find? (fun p => p.1 == id)).map Prod.snd

/-- Modelled from the spec: `create(payload)` persists a fresh record with
status `pending` and no result. -/
def createRecord (s : Store) (id payload : Nat) : Store :=
  (id, { status := JobStatus.pending, payload := payload, result := none }) :: s

/-- Modelled from the spec: `update(query_id, status, result?)` atomically
replaces the status and result of the record with that key. -/
def updateRecord (s : Store) (id : Nat) (st : JobStatus) (r : Option Nat) :
    Store :=
  s.map (fun p =>
    if p.1 == id then (p.1, { p.2 with status := st, result := r }) else p)

/-- Modelled from the spec: the error taxonomy of the pipeline. -/
inductive PipelineError
  | StoreUnavailable
  | NotFound
  | LeaseExpired
  | SubmissionRejected
deriving DecidableEq, Repr

/-- Modelled from the spec: a Queue Message wraps a `query_id` plus a
monotonically increasing `receive_count`. -/
structure QueueMessage where
  queryId : Nat
  receiveCount : Nat
deriving DecidableEq, Repr

/-- Modelled from the spec: the Durable Queue.  `visible` holds messages
available to `receive`; `inFlight` maps lease tokens to checked-out
messages; `dlq` is the Dead-Letter Path; `nextToken` generates fresh lease
tokens; `maxReceive` is the dead-letter threshold (3 in the reference
configuration of `jobsQueue`). -/
structure DurableQueue where
  visible : List QueueMessage
  inFlight : List (Nat × QueueMessage)
  dlq : List QueueMessage
  nextToken : Nat
  maxReceive : Nat
deriving DecidableEq, Repr

/-- Modelled from the spec: `enqueue` appends a message with
`receive_count = 0`. -/
def DurableQueue.enqueue (q : DurableQueue) (id : Nat) : DurableQueue :=
  { q with visible := q.visible ++ [{ queryId := id, receiveCount := 0 }] }

/-- Modelled from the spec: `receive` of a single message.  The head of the
visible list is considered; its `receive_count` is incremented by exactly 1.
If the incremented count exceeds `maxReceive`, the message is moved to the
Dead-Letter Path (removed from the primary queue, never delivered);
otherwise it is delivered under a fresh lease token and becomes in-flight. -/
def DurableQueue.receiveOne (q : DurableQueue) :
    Option (QueueMessage × Nat) × DurableQueue :=
  match q.visible with
  | [] => (none, q)
  | m :: rest =>
    if q.maxReceive < m.receiveCount + 1 then
      (none, { q with visible := rest, dlq := q.dlq ++ [m] })
    else
      let m2 : QueueMessage := { queryId := m.queryId, receiveCount := m.receiveCount + 1 }
      (some (m2, q.nextToken),
       { q with
           visible := rest
           inFlight := (q.nextToken, m2) :: q.inFlight
           nextToken := q.nextToken + 1 })

/-- Modelled from the spec: `acknowledge(leaseToken)` removes the in-flight
message permanently; on an already-removed or expired lease it fails with
`LeaseExpired`. -/
def DurableQueue.acknowledge (q : DurableQueue) (token : Nat) :
    Except PipelineError DurableQueue :=
  if (q.inFlight.find? (fun p => p.1 == token)).isSome then
    Except.ok { q with inFlight := q.inFlight.filter (fun p => p.1 != token) }
  else
    Except.error PipelineError.LeaseExpired

/-- The caller-side treatment of `acknowledge`: a `LeaseExpired` failure is
a no-op (the state is left unchanged). -/
def DurableQueue.ackOrKeep (q : DurableQueue) (token : Nat) : DurableQueue :=
  match q.acknowledge token with
  | Except.ok q2 => q2
  | Except.error _ => q

/-- Modelled from the spec: lease expiry (or an explicit `abandon`) makes the
in-flight message visible again; its count is incremented on the next
receive. -/
def DurableQueue.expireLease (q : DurableQueue) (token : Nat) : DurableQueue :=
  match q.inFlight.find? (fun p => p.1 == token) with
  | none => q
  | some p =>
    { q with
        inFlight := q.inFlight.filter (fun x => x.1 != token)
        visible := q.visible ++ [p.2] }

/-- The full pipeline state: the Job Record Store, the Durable Queue, and
the generator of fresh `query_id`s. -/
structure PipelineState where
  store : Store
  queue : DurableQueue
  nextId : Nat
deriving DecidableEq, Repr

/-- The initial pipeline state: empty store, empty queue with the reference
dead-letter threshold of 3 receives. -/
def pipelineInit : PipelineState :=
  { store := []
    queue := { visible := [], inFlight := [], dlq := [], nextToken := 0, maxReceive := 3 }
    nextId := 0 }

/-- Modelled from the spec: `submit(payload)` creates a Job Record with
status `pending`, enqueues a message, and returns the identifier; it does
nothing else and never blocks on the Worker Pool.  `enqueueOk` stands for
whether the enqueue call succeeds; when it fails, `submit` fails with
`SubmissionRejected` and the already-created record remains `pending`. -/
def submit (s : PipelineState) (payload : Nat) (enqueueOk : Bool) :
    Except PipelineError Nat × PipelineState :=
  let id := s.nextId
  let store2 := createRecord s.store id payload
  if enqueueOk then
    (Except.ok id,
     { store := store2, queue := s.queue.enqueue id, nextId := s.nextId + 1 })
  else
    (Except.error PipelineError.SubmissionRejected,
     { store := store2, queue := s.queue, nextId := s.nextId + 1 })

/-- Modelled from the spec: `status(query_id)` is a read path against the
Job Record Store, failing with `NotFound` on an unknown id. -/
def statusOp (s : PipelineState) (id : Nat) : Except PipelineError JobRecord :=
  match Store.get s.store id with
  | some r => Except.ok r
  | none => Except.error PipelineError.NotFound

/-- Observable actions of a worker against the shared resources, used to
state ordering properties. -/
inductive WorkerEvent
  | updateEvent (id : Nat) (st : JobStatus) (r : Option Nat)
  | ackEvent (token : Nat)
deriving DecidableEq, Repr

/-- Apply a single worker event to the pipeline state. -/
def applyEvent (s : PipelineState) (e : WorkerEvent) : PipelineState :=
  match e with
  | WorkerEvent.updateEvent id st r =>
    { s with store := updateRecord s.store id st r }
  | WorkerEvent.ackEvent token =>
    { s with queue := s.queue.ackOrKeep token }

/-- Apply a list of worker events in order. -/
def applyEvents (s : PipelineState) (es : List WorkerEvent) : PipelineState :=
  es.foldl applyEvent s

/-- Modelled from the spec: the successful handling by the Worker Pool of a
leased message — it calls `update(completed, result)` and then
`acknowledge`, in that order. -/
def workerTrace (m : QueueMessage) (token r : Nat) : List WorkerEvent :=
  [WorkerEvent.updateEvent m.queryId JobStatus.completed (some r),
   WorkerEvent.ackEvent token]

/-- The state after a worker successfully processes a leased message: the
trace of its events applied in order. -/
def workerProcessSuccess (s : PipelineState) (m : QueueMessage)
    (token r : Nat) : PipelineState :=
  applyEvents s (workerTrace m token r)

/-- Modelled from the spec: one failed processing round — a worker receives
the message and then lets its lease expire (crash or recoverable failure),
so the message is redelivered. -/
def deadLetterCycle (q : DurableQueue) : DurableQueue :=
  match q.receiveOne with
  | (some (_, token), q2) => q2.expireLease token
  | (none, q2) => q2

/-- The Job Record Store invariant: `result` is set if and only if
`status ∈ {completed, failed}`. -/
def storeInv (s : Store) : Prop :=
  ∀ p ∈ s, (p.2.result.isSome = true ↔
    (p.2.status = JobStatus.completed ∨ p.2.status = JobStatus.failed))

/-- The operations of the pipeline, as invoked by the Submission Endpoint
and the Worker Pool: submission (with the enqueue either succeeding or
failing), receive, the transitions made by the worker (`processing` on pickup,
`completed` with a result via the update-then-acknowledge trace, `failed`
with an error result), acknowledge treated as no-op on lease expiry, and
lease expiry itself. -/
inductive PipelineStep : PipelineState → PipelineState → Prop
  | submitOp (s : PipelineState) (payload : Nat) (ok : Bool) :
      PipelineStep s (submit s payload ok).2
  | receiveOp (s : PipelineState) :
      PipelineStep s { s with queue := (s.queue.receiveOne).2 }
  | markProcessing (s : PipelineState) (id : Nat) :
      PipelineStep s
        { s with store := updateRecord s.store id JobStatus.processing none }
  | completeOp (s : PipelineState) (m : QueueMessage) (token r : Nat) :
      PipelineStep s (workerProcessSuccess s m token r)
  | failOp (s : PipelineState) (id r : Nat) :
      PipelineStep s
        { s with store := updateRecord s.store id JobStatus.failed (some r) }
  | ackOp (s : PipelineState) (token : Nat) :
      PipelineStep s { s with queue := s.queue.ackOrKeep token }
  | expireOp (s : PipelineState) (token : Nat) :
      PipelineStep s { s with queue := s.queue.expireLease token }

/-- A pipeline state reachable from the initial state by pipeline
operations. -/
def Reachable (s : PipelineState) : Prop :=
  Relation.ReflTransGen PipelineStep pipelineInit s

/-- A concrete record used to instantiate theorems. -/
def sampleRecord : JobRecord :=
  { status := JobStatus.processing, payload := 7, result := none }

/-- A concrete pipeline state used to instantiate theorems: one record with
id 5 being processed, its message in flight under lease token 9. -/
def sampleState : PipelineState :=
  { store := [(5, sampleRecord)]
    queue :=
      { visible := []
        inFlight := [(9, { queryId := 5, receiveCount := 1 })]
        dlq := []
        nextToken := 10
        maxReceive := 3 }
    nextId := 6 }

/-- The queue of `sampleState` after acknowledging lease token 9. -/
def sampleAcked : DurableQueue :=
  { sampleState.queue with inFlight := [] }

/-! ## Helper lemmas. -/

/-- Unfolding of `updateRecord` on a cons cell. -/
theorem updateRecord_cons (k : Nat) (rec : JobRecord) (t : Store) (id : Nat)
    (st : JobStatus) (r : Option Nat) :
    updateRecord ((k, rec) :: t) id st r =
      (if k == id then (k, { rec with status := st, result := r }) else (k, rec))
        :: updateRecord t id st r := rfl

/-- Looking up the key an update targeted returns the updated record (when
the key was present). -/
theorem get_updateRecord_self (s : Store) (id : Nat) (st : JobStatus)
    (r : Option Nat) :
    Store.get (updateRecord s id st r) id =
      (Store.get s id).map (fun rec => { rec with status := st, result := r }) := by
  induction s with
  | nil => rfl
  | cons p t ih =>
    rcases p with ⟨k, rec⟩
    cases hb : (k == id) with
    | true =>
      rw [updateRecord_cons, if_pos hb]
      simp [Store.get, List.find?_cons, hb]
    | false =>
      rw [updateRecord_cons, if_neg (by simp [hb])]
      simp only [Store.get, List.find?_cons]
      simp only [hb]
      simpa [Store.get] using ih

/-- Updating a record twice with the same arguments equals updating it
once. -/
theorem updateRecord_idem (s : Store) (id : Nat) (st : JobStatus)
    (r : Option Nat) :
    updateRecord (updateRecord s id st r) id st r = updateRecord s id st r := by
  induction s with
  | nil => rfl
  | cons p t ih =>
    rcases p with ⟨k, rec⟩
    cases hb : (k == id) with
    | true =>
      rw [updateRecord_cons, if_pos hb, updateRecord_cons, if_pos hb, ih]
    | false =>
      rw [updateRecord_cons, if_neg (by simp [hb]), updateRecord_cons,
        if_neg (by simp [hb]), ih]

/-- Looking up a freshly created record returns it with status `pending`
and no result. -/
theorem get_createRecord_self (s : Store) (id payload : Nat) :
    Store.get (createRecord s id payload) id =
      some { status := JobStatus.pending, payload := payload, result := none } := by
  simp [Store.get, createRecord, List.find?]

/-- Creating a fresh `pending` record preserves the store invariant. -/
theorem storeInv_createRecord (s : Store) (id payload : Nat)
    (h : storeInv s) : storeInv (createRecord s id payload) := by
  intro p hp
  rcases List.mem_cons.mp hp with h1 | h1
  · subst h1; simp
  · exact h p h1

/-- An update whose result presence is consistent with its status preserves
the store invariant. -/
theorem storeInv_updateRecord (s : Store) (id : Nat) (st : JobStatus)
    (r : Option Nat)
    (hc : r.isSome = true ↔ (st = JobStatus.completed ∨ st = JobStatus.failed))
    (h : storeInv s) : storeInv (updateRecord s id st r) := by
  intro p hp
  simp only [updateRecord] at hp
  rcases List.mem_map.mp hp with ⟨q, hq, rfl⟩
  by_cases hk : (q.1 == id) = true
  · rw [if_pos hk]
    exact hc
  · rw [if_neg hk]
    exact h q hq

/-- Every pipeline operation preserves the store invariant. -/
theorem pipelineStep_storeInv {s s2 : PipelineState}
    (h : PipelineStep s s2) (hs : storeInv s.store) : storeInv s2.store := by
  cases h with
  | submitOp payload ok =>
    have he : (submit s payload ok).2.store =
        createRecord s.store s.nextId payload := by
      cases ok <;> rfl
    rw [he]
    exact storeInv_createRecord _ _ _ hs
  | receiveOp => exact hs
  | markProcessing id =>
    exact storeInv_updateRecord _ _ _ _ (by simp) hs
  | completeOp m token r =>
    have he : (workerProcessSuccess s m token r).store =
        updateRecord s.store m.queryId JobStatus.completed (some r) := rfl
    rw [he]
    exact storeInv_updateRecord _ _ _ _ (by simp) hs
  | failOp id r =>
    exact storeInv_updateRecord _ _ _ _ (by simp) hs
  | ackOp token => exact hs
  | expireOp token => exact hs

/-! ## Claim theorems. -/

/-- C3: for every reachable Job Record, `result` is set if and only if the
status of the record is `completed` or `failed`; every pipeline operation
(create, update, enqueue, receive, acknowledge, lease expiry) preserves
this invariant. -/
theorem result_iff_terminal_status (s : PipelineState) (h : Reachable s) :
    storeInv s.store := by
  induction h with
  | refl =>
    intro p hp
    simp [pipelineInit] at hp
  | tail _ hstep ih => exact pipelineStep_storeInv hstep ih

/-- Witness for C3 at the initial state. -/
theorem result_iff_terminal_status_witness : storeInv pipelineInit.store :=
  result_iff_terminal_status pipelineInit Relation.ReflTransGen.refl

/-- C1: in the trace of a successful worker processing of a message, the
`update(completed, result)` event occurs strictly before the `acknowledge`
event, and at the point of every acknowledge event the result is already
persisted in the Job Record Store. -/
theorem update_happens_before_acknowledge (s : PipelineState)
    (m : QueueMessage) (token r : Nat) (rec : JobRecord)
    (h : Store.get s.store m.queryId = some rec) :
    ∃ i j : Nat, i < j ∧
      (workerTrace m token r)[i]? =
        some (WorkerEvent.updateEvent m.queryId JobStatus.completed (some r)) ∧
      (workerTrace m token r)[j]? = some (WorkerEvent.ackEvent token) ∧
      ∀ k t2, (workerTrace m token r)[k]? = some (WorkerEvent.ackEvent t2) →
        Store.get (applyEvents s ((workerTrace m token r).take k)).store
            m.queryId =
          some { status := JobStatus.completed, payload := rec.payload,
                 result := some r } := by
  refine ⟨0, 1, by decide, rfl, rfl, ?_⟩
  intro k t2 hk
  match k with
  | 0 => simp [workerTrace] at hk
  | 1 =>
    show Store.get
        (applyEvents s [WorkerEvent.updateEvent m.queryId JobStatus.completed
          (some r)]).store m.queryId = _
    show Store.get
        (updateRecord s.store m.queryId JobStatus.completed (some r))
        m.queryId = _
    rw [get_updateRecord_self, h]
    rfl
  | (n + 2) => simp [workerTrace] at hk

/-- Witness for C1 at a concrete state holding one record. -/
theorem update_happens_before_acknowledge_witness :
    Store.get sampleState.store 5 = some sampleRecord ∧
    ∃ i j : Nat, i < j ∧
      (workerTrace { queryId := 5, receiveCount := 1 } 9 42)[i]? =
        some (WorkerEvent.updateEvent 5 JobStatus.completed (some 42)) ∧
      (workerTrace { queryId := 5, receiveCount := 1 } 9 42)[j]? =
        some (WorkerEvent.ackEvent 9) ∧
      ∀ k t2,
        (workerTrace { queryId := 5, receiveCount := 1 } 9 42)[k]? =
          some (WorkerEvent.ackEvent t2) →
        Store.get
            (applyEvents sampleState
              ((workerTrace { queryId := 5, receiveCount := 1 } 9 42).take
                k)).store 5 =
          some { status := JobStatus.completed,
                 payload := sampleRecord.payload, result := some 42 } :=
  ⟨rfl, update_happens_before_acknowledge sampleState
    { queryId := 5, receiveCount := 1 } 9 42 sampleRecord rfl⟩

/-- C2: each delivery increments `receive_count` by exactly 1; once the
count would exceed the configured maximum the message is removed from the
primary queue, never delivered, and appended to the Dead-Letter Path; at
the reference threshold of 3 receives a poison message is delivered with
counts 1, 2, 3 and then lands in the Dead-Letter Path exactly once, after
which `receive` no longer yields it. -/
theorem receive_count_dead_letter
    (q : DurableQueue) (m : QueueMessage) (rest : List QueueMessage)
    (h : q.visible = m :: rest) :
    (m.receiveCount < q.maxReceive →
      (q.receiveOne).1 =
        some ({ queryId := m.queryId, receiveCount := m.receiveCount + 1 },
          q.nextToken) ∧
      (q.receiveOne).2.dlq = q.dlq) ∧
    (q.maxReceive ≤ m.receiveCount →
      (q.receiveOne).1 = none ∧
      (q.receiveOne).2.visible = rest ∧
      (q.receiveOne).2.inFlight = q.inFlight ∧
      (q.receiveOne).2.dlq = q.dlq ++ [m] ∧
      (q.receiveOne).2.dlq.count m = q.dlq.count m + 1) ∧
    (∀ id : Nat,
      ((pipelineInit.queue.enqueue id).receiveOne).1 =
        some ({ queryId := id, receiveCount := 1 }, 0) ∧
      ((deadLetterCycle (pipelineInit.queue.enqueue id)).receiveOne).1 =
        some ({ queryId := id, receiveCount := 2 }, 1) ∧
      ((deadLetterCycle (deadLetterCycle
          (pipelineInit.queue.enqueue id))).receiveOne).1 =
        some ({ queryId := id, receiveCount := 3 }, 2) ∧
      ((deadLetterCycle (deadLetterCycle (deadLetterCycle
          (pipelineInit.queue.enqueue id)))).receiveOne).1 = none ∧
      ((deadLetterCycle (deadLetterCycle (deadLetterCycle
          (pipelineInit.queue.enqueue id)))).receiveOne).2.visible = [] ∧
      ((deadLetterCycle (deadLetterCycle (deadLetterCycle
          (pipelineInit.queue.enqueue id)))).receiveOne).2.inFlight = [] ∧
      ((deadLetterCycle (deadLetterCycle (deadLetterCycle
          (pipelineInit.queue.enqueue id)))).receiveOne).2.dlq =
        [{ queryId := id, receiveCount := 3 }] ∧
      (((deadLetterCycle (deadLetterCycle (deadLetterCycle
          (pipelineInit.queue.enqueue id)))).receiveOne).2.dlq).count
          { queryId := id, receiveCount := 3 } = 1 ∧
      ((((deadLetterCycle (deadLetterCycle (deadLetterCycle
          (pipelineInit.queue.enqueue id)))).receiveOne).2).receiveOne).1 =
        none) := by
  refine ⟨?_, ?_, ?_⟩
  · intro hlt
    simp only [DurableQueue.receiveOne, h]
    rw [if_neg (by omega)]
    exact ⟨rfl, rfl⟩
  · intro hge
    simp only [DurableQueue.receiveOne, h]
    rw [if_pos (by omega)]
    refine ⟨rfl, rfl, rfl, rfl, ?_⟩
    simp [List.count_append, List.count_cons]
  · intro id
    refine ⟨rfl, rfl, rfl, rfl, rfl, rfl, rfl, ?_, rfl⟩
    show ([{ queryId := id, receiveCount := 3 }] : List QueueMessage).count
        { queryId := id, receiveCount := 3 } = 1
    simp [List.count_cons]

/-- Witness for C2 at a concrete queue holding an exhausted message. -/
theorem receive_count_dead_letter_witness :
    (({ visible := [{ queryId := 4, receiveCount := 3 }], inFlight := [],
        dlq := [], nextToken := 0, maxReceive := 3 } :
          DurableQueue).receiveOne).1 = none ∧
    (({ visible := [{ queryId := 4, receiveCount := 3 }], inFlight := [],
        dlq := [], nextToken := 0, maxReceive := 3 } :
          DurableQueue).receiveOne).2.dlq =
      [{ queryId := 4, receiveCount := 3 }] ∧
    ((pipelineInit.queue.enqueue 4).receiveOne).1 =
      some ({ queryId := 4, receiveCount := 1 }, 0) := by
  have h := receive_count_dead_letter
    { visible := [{ queryId := 4, receiveCount := 3 }], inFlight := [],
      dlq := [], nextToken := 0, maxReceive := 3 }
    { queryId := 4, receiveCount := 3 } [] rfl
  have h2 := h.2.1 (by decide)
  exact ⟨h2.1, by simpa using h2.2.2.2.1, (h.2.2 4).1⟩

/-- C4: `submit(P)` returns the fresh `query_id`, having only created a
`pending` record and enqueued one message; `status` immediately after
returns the `pending` record; the configured timeout of the endpoint is well
under 30 seconds. -/
theorem submit_returns_pending (s : PipelineState) (payload : Nat) :
    (submit s payload true).1 = Except.ok s.nextId ∧
    statusOp (submit s payload true).2 s.nextId =
      Except.ok { status := JobStatus.pending, payload := payload,
                  result := none } ∧
    (submit s payload true).2.store = createRecord s.store s.nextId payload ∧
    (submit s payload true).2.queue = s.queue.enqueue s.nextId ∧
    apiFunction.timeoutSeconds < 30 := by
  refine ⟨rfl, ?_, rfl, rfl, by decide⟩
  show statusOp
      { store := createRecord s.store s.nextId payload,
        queue := s.queue.enqueue s.nextId, nextId := s.nextId + 1 }
      s.nextId = _
  simp [statusOp, get_createRecord_self]

/-- C5: `acknowledge` on a lease that is not in flight fails with
`LeaseExpired`; treated as a no-op it leaves the queue unchanged, so every
still-valid in-flight message survives. -/
theorem acknowledge_expired_lease (q : DurableQueue) (token : Nat)
    (h : q.inFlight.find? (fun p => p.1 == token) = none) :
    q.acknowledge token = Except.error PipelineError.LeaseExpired ∧
    q.ackOrKeep token = q ∧
    ∀ p ∈ q.inFlight, p ∈ (q.ackOrKeep token).inFlight := by
  have h1 : q.acknowledge token = Except.error PipelineError.LeaseExpired := by
    simp [DurableQueue.acknowledge, h]
  have h2 : q.ackOrKeep token = q := by
    simp [DurableQueue.ackOrKeep, h1]
  refine ⟨h1, h2, ?_⟩
  intro p hp
  rw [h2]
  exact hp

/-- Witness for C5: acknowledging the unknown token 3 on the queue of
`sampleState` fails and keeps the in-flight message under token 9. -/
theorem acknowledge_expired_lease_witness :
    sampleState.queue.inFlight.find? (fun p => p.1 == 3) = none ∧
    sampleState.queue.acknowledge 3 =
      Except.error PipelineError.LeaseExpired ∧
    sampleState.queue.ackOrKeep 3 = sampleState.queue ∧
    ∀ p ∈ sampleState.queue.inFlight,
      p ∈ (sampleState.queue.ackOrKeep 3).inFlight :=
  ⟨rfl, acknowledge_expired_lease sampleState.queue 3 rfl⟩

/-- C6: when the enqueue fails after the record was created, `submit` fails
with `SubmissionRejected`, the record remains in the store with status
`pending`, and the queue is untouched. -/
theorem submission_rejected_record_remains (s : PipelineState)
    (payload : Nat) :
    (submit s payload false).1 =
      Except.error PipelineError.SubmissionRejected ∧
    statusOp (submit s payload false).2 s.nextId =
      Except.ok { status := JobStatus.pending, payload := payload,
                  result := none } ∧
    (submit s payload false).2.store = createRecord s.store s.nextId payload ∧
    (submit s payload false).2.queue = s.queue := by
  refine ⟨rfl, ?_, rfl, rfl⟩
  show statusOp
      { store := createRecord s.store s.nextId payload, queue := s.queue,
        nextId := s.nextId + 1 } s.nextId = _
  simp [statusOp, get_createRecord_self]

/-- C7: `update(id, completed, R)` is idempotent — applying it twice with
the same arguments leaves the Job Record Store in the same state as
applying it once. -/
theorem update_completed_idempotent (s : Store) (id r : Nat) :
    updateRecord (updateRecord s id JobStatus.completed (some r)) id
        JobStatus.completed (some r) =
      updateRecord s id JobStatus.completed (some r) :=
  updateRecord_idem s id JobStatus.completed (some r)

/-- C8: the reference configuration — 120 s visibility lease on the primary
queue, batches of up to 5 messages with a batching window of up to 1 s, and
dead-lettering to `JobsDLQ` after 3 receives. -/
theorem reference_configuration :
    jobsQueue.visibilityTimeoutSeconds = some 120 ∧
    workerEventSource.queueId = jobsQueue.id ∧
    workerEventSource.batchSize = 5 ∧
    workerEventSource.maxBatchingWindowSeconds = 1 ∧
    jobsQueue.deadLetter =
      some { maxReceiveCount := 3, queueId := jobsDlq.id } :=
  ⟨rfl, rfl, rfl, rfl, rfl⟩

/-- C9: dead-letter entries are retained (14-day retention), no event
source or consume grant of the stack touches the dead-letter queue, and in
the pipeline model every queue operation leaves the Dead-Letter Path an
unmodified (append-only) prefix — entries are immutable and never
reprocessed. -/
theorem dead_letter_never_reprocessed :
    (∀ es ∈ stackEventSources, es.queueId ≠ jobsDlq.id) ∧
    (∀ g ∈ stackQueueGrants, g.queueId ≠ jobsDlq.id) ∧
    jobsDlq.retentionPeriodDays = 14 ∧
    (∀ (q : DurableQueue) (id2 : Nat),
      (q.enqueue id2).dlq = q.dlq) ∧
    (∀ q : DurableQueue, ∃ t, (q.receiveOne).2.dlq = q.dlq ++ t) ∧
    (∀ (q : DurableQueue) (token : Nat) (q2 : DurableQueue),
      q.acknowledge token = Except.ok q2 → q2.dlq = q.dlq) ∧
    (∀ (q : DurableQueue) (token : Nat),
      (q.expireLease token).dlq = q.dlq) ∧
    (∀ (q : DurableQueue) (token : Nat),
      (q.ackOrKeep token).dlq = q.dlq) := by
  refine ⟨?_, ?_, rfl, ?_, ?_, ?_, ?_, ?_⟩
  · intro es hes
    simp [stackEventSources, workerEventSource, jobsDlq] at hes ⊢
    subst hes
    simp
  · intro g hg
    simp [stackQueueGrants, jobsDlq] at hg ⊢
    rcases hg with hg | hg <;> (subst hg; simp)
  · intro q id2
    rfl
  · intro q
    obtain ⟨vis, fl, d, tok, mx⟩ := q
    cases vis with
    | nil => exact ⟨[], by simp [DurableQueue.receiveOne]⟩
    | cons m rest =>
      by_cases hm : mx < m.receiveCount + 1
      · refine ⟨[m], ?_⟩
        simp [DurableQueue.receiveOne, hm]
      · refine ⟨[], ?_⟩
        simp [DurableQueue.receiveOne, hm]
  · intro q token q2 h
    by_cases hf : (q.inFlight.find? (fun p => p.1 == token)).isSome = true
    · simp only [DurableQueue.acknowledge, hf, if_pos] at h
      cases h
      rfl
    · simp [DurableQueue.acknowledge, hf] at h
  · intro q token
    unfold DurableQueue.expireLease
    cases hf : q.inFlight.find? (fun p => p.1 == token) with
    | none => rfl
    | some p => rfl
  · intro q token
    unfold DurableQueue.ackOrKeep
    by_cases hf : (q.inFlight.find? (fun p => p.1 == token)).isSome = true
    · simp only [DurableQueue.acknowledge, hf, if_pos]
    · simp only [DurableQueue.acknowledge, hf, if_neg]
      simp [hf]

/-- Witness for C9: a concrete successful acknowledge leaves the dead-letter
path unchanged. -/
theorem dead_letter_never_reprocessed_witness :
    sampleState.queue.acknowledge 9 = Except.ok sampleAcked ∧
    sampleAcked.dlq = sampleState.queue.dlq := by
  refine ⟨rfl, ?_⟩
  exact dead_letter_never_reprocessed.2.2.2.2.2.1 sampleState.queue 9
    sampleAcked rfl

/-- C10: the maximum execution time of the worker (60 s) is strictly below
the visibility lease of the primary queue (120 s). -/
theorem worker_timeout_below_visibility :
    workerFunction.timeoutSeconds = 60 ∧
    jobsQueue.visibilityTimeoutSeconds = some 120 ∧
    ∀ v, jobsQueue.visibilityTimeoutSeconds = some v →
      workerFunction.timeoutSeconds < v := by
  refine ⟨rfl, rfl, ?_⟩
  intro v hv
  simp only [jobsQueue, Option.some.injEq] at hv
  subst hv
  decide

/-- Witness for C10 at the configured lease duration. -/
theorem worker_timeout_below_visibility_witness :
    workerFunction.timeoutSeconds < 120 :=
  worker_timeout_below_visibility.2.2 120 rfl

end RagPipeline
